import Mathlib

/-!
Verification of the Echo trading-journal engine (trade_tracker.py,
backtester.py, app.py) against its natural-language specification.

Shallow embedding conventions:
* Python floats are modelled as exact rationals (ℚ).
* Python `round(x, n)` (round-half-to-even) is modelled by `pyRound`.
* `datetime` values are modelled by `DateTime`: an integer day number
  (days since 1970-01-01) plus a fractional time-of-day; comparisons are
  lexicographic, `strftime('%Y-%m-%d')` keys become the day number.
* `datetime.now()` is passed in explicitly as a `now : DateTime` argument.
-/

namespace Echo

/-- Round a rational to the nearest integer, ties to even
(models Python's built-in `round` on exact values). -/
def roundHalfEven (x : ℚ) : ℤ :=
  let f := Int.floor x
  let r := x - f
  if r < 1/2 then f
  else if 1/2 < r then f + 1
  else if f % 2 = 0 then f else f + 1

/-- Models Python `round(x, n)` for `n` decimal digits. -/
def pyRound (x : ℚ) (n : ℕ) : ℚ :=
  (roundHalfEven (x * (10 : ℚ) ^ n) : ℚ) / (10 : ℚ) ^ n

/-- A naive timestamp: `day` counts days since 1970-01-01, `frac` is the
time of day as a fraction of a day (0 = midnight). -/
structure DateTime where
  day : ℤ
  frac : ℚ
deriving DecidableEq, Repr

/-- Lexicographic `<=` on timestamps (models Python datetime comparison). -/
def dtLe (a b : DateTime) : Prop :=
  a.day < b.day ∨ (a.day = b.day ∧ a.frac ≤ b.frac)

/-- Lexicographic `<` on timestamps. -/
def dtLt (a b : DateTime) : Prop :=
  a.day < b.day ∨ (a.day = b.day ∧ a.frac < b.frac)

instance : DecidablePred (fun p : DateTime × DateTime => dtLe p.1 p.2) :=
  fun p => by unfold dtLe; infer_instance

instance (a b : DateTime) : Decidable (dtLe a b) := by unfold dtLe; infer_instance

instance (a b : DateTime) : Decidable (dtLt a b) := by unfold dtLt; infer_instance

/-- Python `max(a, b)` on datetimes: returns `a` unless `b` is greater. -/
def dtMax (a b : DateTime) : DateTime :=
  if dtLt a b then b else a

/-- Python's `datetime.weekday()` (Monday = 0).  Day 0 of the epoch,
1970-01-01, was a Thursday (weekday index 3). -/
def weekdayIndex (d : DateTime) : ℕ :=
  ((d.day + 3) % 7).toNat

/-- The weekday-name table used by the backtester's day-of-week filter. -/
def dayNames : List String :=
  ["Monday", "Tuesday", "Wednesday", "Thursday", "Friday", "Saturday", "Sunday"]

/-- `day_names[trade_date.weekday()]` from `backtester.py`. -/
def weekdayName (d : DateTime) : String :=
  dayNames.getD (weekdayIndex d) ""

/-- Gregorian leap-year test (models the calendar used by `datetime`). -/
def isLeap (y : ℤ) : Bool :=
  y % 4 = 0 && (y % 100 ≠ 0 || y % 400 = 0)

/-- Days in a Gregorian month (models `datetime` constructor validation). -/
def daysInMonth (y m : ℤ) : ℤ :=
  if m = 2 then (if isLeap y then 29 else 28)
  else if m = 4 ∨ m = 6 ∨ m = 9 ∨ m = 11 then 30
  else 31

/-- Day count since 1970-01-01 of the civil date `y-m-d`
(standard civil-from-days arithmetic, floor division throughout). -/
def daysFromCivil (y m d : ℤ) : ℤ :=
  let y2 := if m ≤ 2 then y - 1 else y
  let era := Int.fdiv y2 400
  let yoe := y2 - era * 400
  let mp := if 2 < m then m - 3 else m + 9
  let doy := Int.fdiv (153 * mp + 2) 5 + d - 1
  let doe := yoe * 365 + Int.fdiv yoe 4 - Int.fdiv yoe 100 + doy
  era * 146097 + doe - 719468

/-- Build a `DateTime` from civil date and clock fields. -/
def mkDateTime (y mo d h mi s : ℤ) (micro : ℚ) : DateTime :=
  { day := daysFromCivil y mo d
    frac := ((h * 3600 + mi * 60 + s : ℤ) : ℚ) / 86400 + micro / (86400 * 1000000) }

/-- Numeric value of a decimal digit character, if it is one. -/
def charDigit (c : Char) : Option ℕ :=
  if c.isDigit then some (c.toNat - 48) else Option.none

/-- Read exactly `n` decimal digits from the front of a character list
(models the fixed-width fields of the stdlib date parsers). -/
def readNDigits : ℕ → List Char → Option (ℕ × List Char)
  | 0, cs => some (0, cs)
  | n + 1, [] => (fun _ => Option.none) n
  | n + 1, c :: cs =>
    match charDigit c with
    | Option.none => Option.none
    | some d =>
      match readNDigits n cs with
      | Option.none => Option.none
      | some (v, rest) => some (d * 10 ^ n + v, rest)

/-- Read one or two decimal digits, greedily (models `strptime`'s
one-or-two-digit numeric fields such as month and day). -/
def readUpTo2Digits : List Char → Option (ℕ × List Char)
  | [] => Option.none
  | c :: cs =>
    match charDigit c with
    | Option.none => Option.none
    | some d =>
      match cs with
      | c2 :: cs2 =>
        match charDigit c2 with
        | some d2 => some (d * 10 + d2, cs2)
        | Option.none => some (d, cs)
      | [] => some (d, [])

/-- Expect a literal character at the front of the input. -/
def expectChar (c : Char) : List Char → Option (List Char)
  | [] => Option.none
  | x :: xs => if x = c then some xs else Option.none

/-- Range validation for a civil date (models the `ValueError` raised by
the `datetime` constructor on out-of-range fields). -/
def validYMD (y m d : ℕ) : Bool :=
  1 ≤ m && m ≤ 12 && 1 ≤ d && (d : ℤ) ≤ daysInMonth (y : ℤ) (m : ℤ)

/-- Range validation for a clock time. -/
def validHMS (h mi s : ℕ) : Bool :=
  h ≤ 23 && mi ≤ 59 && s ≤ 59

/-- Read the clock part `HH:MM:SS` with one-or-two-digit fields
(shared tail of the two `... %H:%M:%S` fallback formats). -/
def readHMS (cs : List Char) : Option ((ℕ × ℕ × ℕ) × List Char) :=
  match readUpTo2Digits cs with
  | Option.none => Option.none
  | some (h, r1) =>
    match expectChar ':' r1 with
    | Option.none => Option.none
    | some r2 =>
      match readUpTo2Digits r2 with
      | Option.none => Option.none
      | some (mi, r3) =>
        match expectChar ':' r3 with
        | Option.none => Option.none
        | some r4 =>
          match readUpTo2Digits r4 with
          | Option.none => Option.none
          | some (s, r5) => some ((h, mi, s), r5)

/-- Read the date part `YYYY-MM-DD` (4-digit year, one-or-two-digit
month and day), shared head of the two `%Y-%m-%d ...` fallback formats. -/
def readYMDDashes (cs : List Char) : Option ((ℕ × ℕ × ℕ) × List Char) :=
  match readNDigits 4 cs with
  | Option.none => Option.none
  | some (y, r1) =>
    match expectChar '-' r1 with
    | Option.none => Option.none
    | some r2 =>
      match readUpTo2Digits r2 with
      | Option.none => Option.none
      | some (m, r3) =>
        match expectChar '-' r3 with
        | Option.none => Option.none
        | some r4 =>
          match readUpTo2Digits r4 with
          | Option.none => Option.none
          | some (d, r5) => some ((y, m, d), r5)

/-- Read the date part `MM/DD/YYYY`, shared head of the two
`%m/%d/%Y ...` fallback formats. -/
def readMDYSlashes (cs : List Char) : Option ((ℕ × ℕ × ℕ) × List Char) :=
  match readUpTo2Digits cs with
  | Option.none => Option.none
  | some (m, r1) =>
    match expectChar '/' r1 with
    | Option.none => Option.none
    | some r2 =>
      match readUpTo2Digits r2 with
      | Option.none => Option.none
      | some (d, r3) =>
        match expectChar '/' r3 with
        | Option.none => Option.none
        | some r4 =>
          match readNDigits 4 r4 with
          | Option.none => Option.none
          | some (y, r5) => some ((y, m, d), r5)

/-- `strptime(s, '%Y-%m-%d %H:%M:%S')` as a total matcher. -/
def fmtYMD_HMS (cs : List Char) : Option DateTime :=
  match readYMDDashes cs with
  | Option.none => Option.none
  | some ((y, m, d), r) =>
    match expectChar ' ' r with
    | Option.none => Option.none
    | some r2 =>
      match readHMS r2 with
      | some ((h, mi, s), []) =>
        if validYMD y m d && validHMS h mi s then
          some (mkDateTime y m d h mi s 0)
        else Option.none
      | _ => Option.none

/-- `strptime(s, '%Y-%m-%d')` as a total matcher. -/
def fmtYMD (cs : List Char) : Option DateTime :=
  match readYMDDashes cs with
  | some ((y, m, d), []) =>
    if validYMD y m d then some (mkDateTime y m d 0 0 0 0) else Option.none
  | _ => Option.none

/-- `strptime(s, '%m/%d/%Y %H:%M:%S')` as a total matcher. -/
def fmtMDY_HMS (cs : List Char) : Option DateTime :=
  match readMDYSlashes cs with
  | Option.none => Option.none
  | some ((y, m, d), r) =>
    match expectChar ' ' r with
    | Option.none => Option.none
    | some r2 =>
      match readHMS r2 with
      | some ((h, mi, s), []) =>
        if validYMD y m d && validHMS h mi s then
          some (mkDateTime y m d h mi s 0)
        else Option.none
      | _ => Option.none

/-- `strptime(s, '%m/%d/%Y')` as a total matcher. -/
def fmtMDY (cs : List Char) : Option DateTime :=
  match readMDYSlashes cs with
  | some ((y, m, d), []) =>
    if validYMD y m d then some (mkDateTime y m d 0 0 0 0) else Option.none
  | _ => Option.none

/-- The four-format fallback loop of `_parse_date`, tried in source order. -/
def tryFormats (cs : List Char) : Option DateTime :=
  (fmtYMD_HMS cs).orElse fun _ =>
    (fmtYMD cs).orElse fun _ =>
      (fmtMDY_HMS cs).orElse fun _ => fmtMDY cs

/-- Fractional-second digits after the clock part of an ISO string:
empty, or a dot followed by one to six digits. -/
def readIsoFraction (cs : List Char) : Option ℚ :=
  match cs with
  | [] => some 0
  | '.' :: ds =>
    let vals := ds.map charDigit
    if ds ≠ [] ∧ ds.length ≤ 6 ∧ vals.all Option.isSome then
      some (((ds.foldl (fun a c => a * 10 + ((charDigit c).getD 0)) 0 : ℕ) : ℚ)
        / (10 : ℚ) ^ ds.length)
    else Option.none
  | _ => Option.none

/-- `datetime.fromisoformat` on an offset-free string, for the forms the
repository feeds it: `YYYY-MM-DD` optionally followed by a separator
character and `HH:MM[:SS[.ffffff]]`. -/
def isoParse (cs : List Char) : Option DateTime :=
  match readNDigits 4 cs with
  | Option.none => Option.none
  | some (y, r1) =>
    match expectChar '-' r1 with
    | Option.none => Option.none
    | some r2 =>
      match readNDigits 2 r2 with
      | Option.none => Option.none
      | some (m, r3) =>
        match expectChar '-' r3 with
        | Option.none => Option.none
        | some r4 =>
          match readNDigits 2 r4 with
          | Option.none => Option.none
          | some (d, r5) =>
            if validYMD y m d then
              match r5 with
              | [] => some (mkDateTime y m d 0 0 0 0)
              | _ :: r6 =>
                match readNDigits 2 r6 with
                | Option.none => Option.none
                | some (h, r7) =>
                  match expectChar ':' r7 with
                  | Option.none => Option.none
                  | some r8 =>
                    match readNDigits 2 r8 with
                    | Option.none => Option.none
                    | some (mi, r9) =>
                      match r9 with
                      | [] =>
                        if validHMS h mi 0 then some (mkDateTime y m d h mi 0 0)
                        else Option.none
                      | ':' :: r10 =>
                        match readNDigits 2 r10 with
                        | Option.none => Option.none
                        | some (s, r11) =>
                          match readIsoFraction r11 with
                          | Option.none => Option.none
                          | some fr =>
                            if validHMS h mi s then
                              some (mkDateTime y m d h mi s (fr * 1000000))
                            else Option.none
                      | _ => Option.none
            else Option.none

/-- `date_str.replace('Z', '+00:00')` on the character list (the pattern
is the single character `'Z'`). -/
def replaceZ : List Char → List Char
  | [] => []
  | c :: cs =>
    if c = 'Z' then '+' :: '0' :: '0' :: ':' :: '0' :: '0' :: replaceZ cs
    else c :: replaceZ cs

/-- `.split('+')[0]`: the prefix before the first `'+'`. -/
def beforePlus (cs : List Char) : List Char :=
  cs.takeWhile fun c => c ≠ '+'

/-- `date_str.replace('Z', '+00:00').split('+')[0]` from `_parse_date`. -/
def stripOffset (s : String) : List Char :=
  beforePlus (replaceZ s.data)

/-- The string branch of `_parse_date`: ISO when a `'T'` occurs in the
string (no fallback to the four formats on ISO failure, because the
exception is caught by the outer handler), otherwise the format loop. -/
def parseString (s : String) : Option DateTime :=
  if s.data.contains 'T' then isoParse (stripOffset s)
  else tryFormats s.data

/-- A Python date field as the tracker receives it: absent/None, a native
`datetime`, or a string. -/
inductive DateVal where
  | noneVal : DateVal
  | dt : DateTime → DateVal
  | str : String → DateVal
deriving DecidableEq, Repr

/-- `TradeTracker._parse_date` (== `StrategyBacktester._parse_date` for
string and absent inputs; the tracker version also passes native
`datetime` values through).  `now` is the ambient `datetime.now()`. -/
def parseDate (now : DateTime) : DateVal → DateTime
  | DateVal.noneVal => now
  | DateVal.dt d => d
  | DateVal.str s => if s = "" then now else (parseString s).getD now

/-- `True` when `_parse_date` on this value does not take the
"current timestamp" fallback for any `now`. -/
def parsesWithoutFallback : DateVal → Bool
  | DateVal.noneVal => false
  | DateVal.dt _ => true
  | DateVal.str s => s ≠ "" && (parseString s).isSome

/-- Python `str.upper()` for the ASCII strings these records hold,
written over the character list so that it reduces inside the kernel. -/
def upper (s : String) : String :=
  String.mk (s.data.map Char.toUpper)

/-- Python `str.lower()`, same remark. -/
def lower (s : String) : String :=
  String.mk (s.data.map Char.toLower)

/-- One trade record as the engine reads it (fields never read by the
verified routines — `id`, `notes`, `expiration`, `created_at` — are
omitted; absent numeric fields default to 0 and absent strings to `""`
per the §6 field contract).  The `strategy` field is only read by the
backtester. -/
structure Trade where
  symbol : String
  action : String
  quantity : ℚ
  price : ℚ
  sold_amount : ℚ
  transaction_fee : ℚ
  date : DateVal
  option_type : String
  strike : ℚ
  trade_type : String
  strategy : String
deriving DecidableEq, Repr

/-- The matching key `f"{symbol}_{strike}_{option_type}"` (options) or
the bare symbol (everything else), modelled as a tagged tuple so that
key equality is structural rather than via string formatting. -/
inductive MatchKey where
  | stockKey : String → MatchKey
  | optionKey : String → ℚ → String → MatchKey
deriving DecidableEq, Repr

/-- `TradeTracker._get_symbol_key`. -/
def getSymbolKey (t : Trade) : MatchKey :=
  if upper t.trade_type = "OPTION" then
    MatchKey.optionKey t.symbol t.strike t.option_type
  else MatchKey.stockKey t.symbol

/-- `action.upper() in ['BUY', 'OPEN']`. -/
def isOpening (t : Trade) : Bool :=
  upper t.action = "BUY" || upper t.action = "OPEN"

/-- `action.upper() in ['SELL', 'CLOSE']`. -/
def isClosing (t : Trade) : Bool :=
  upper t.action = "SELL" || upper t.action = "CLOSE"

/-- Python `min(a, b)` on numbers, written as an explicit conditional so
that it reduces inside the kernel. -/
def pyMin (a b : ℚ) : ℚ := if a ≤ b then a else b

/-- Python `max(a, b)` on numbers, same remark. -/
def pyMax (a b : ℚ) : ℚ := if a < b then b else a

/-- Insert `x` after every element already `<=` it (the stable insertion
position). -/
def stableInsert (le : α → α → Bool) (x : α) : List α → List α
  | [] => [x]
  | y :: ys => if le y x then y :: stableInsert le x ys else x :: y :: ys

/-- Stable sort by a boolean `<=` (models Python's stable `list.sort`;
any two stable sorts of the same list under the same total preorder
produce the same output, so insertion sort is extensionally faithful
to Timsort). -/
def stableSort (le : α → α → Bool) (l : List α) : List α :=
  l.foldl (fun acc x => stableInsert le x acc) []

/-- One step of the FIFO matching walk in `calculate_trade_pnl`.  State is
`(remaining_qty, total_cost, total_buy_fees)`; a step with
`remaining_qty <= 0` leaves the state unchanged, which is equivalent to
the `break` in the source because `remaining_qty` never increases once
it is non-positive. -/
def fifoStep (st : ℚ × ℚ × ℚ) (buy : Trade) : ℚ × ℚ × ℚ :=
  if st.1 ≤ 0 then st
  else
    let matched := pyMin st.1 buy.quantity
    (st.1 - matched,
     st.2.1 + matched * buy.price * 100,
     st.2.2 + (if 0 < buy.quantity then matched / buy.quantity * buy.transaction_fee else 0))

/-- `TradeTracker.calculate_trade_pnl`: FIFO P&L for a single trade
against the full ledger `trades`.  Note the `* 100` contract multiplier
is applied to every matched lot regardless of `trade_type`. -/
def calculate_trade_pnl (trades : List Trade) (now : DateTime) (trade : Trade) : ℚ :=
  if isClosing trade ∧ 0 < trade.sold_amount then
    let tradeDate := parseDate now trade.date
    let key := getSymbolKey trade
    let buy_trades := trades.filter fun t =>
      isOpening t && decide (getSymbolKey t = key) && decide (dtLt (parseDate now t.date) tradeDate)
    let sorted := stableSort
      (fun a b => decide (dtLe (parseDate now a.date) (parseDate now b.date))) buy_trades
    let st := sorted.foldl fifoStep (trade.quantity, 0, 0)
    let total_cost := if 0 < st.1 then st.2.1 + st.1 * trade.price * 100 else st.2.1
    trade.sold_amount - total_cost - (trade.transaction_fee + st.2.2)
  else
    -- fallback path for records without a positive sold_amount
    if isClosing trade then
      let tradeDate := parseDate now trade.date
      let key := getSymbolKey trade
      let buy_trades := trades.filter fun t =>
        decide (getSymbolKey t = key) && isOpening t && decide (dtLt (parseDate now t.date) tradeDate)
      if buy_trades ≠ [] then
        let total_cost := (buy_trades.map fun t => t.quantity * t.price * 100).sum
        let total_quantity := (buy_trades.map fun t => t.quantity).sum
        if 0 < total_quantity then
          (trade.price * 100 - total_cost / total_quantity) * trade.quantity - trade.transaction_fee
        else 0
      else 0
    else 0

/-! ## Backtest engine (`backtester.py`) -/

/-- `StrategyBacktester.TRANSACTION_FEE`. -/
def TRANSACTION_FEE : ℚ := 2

/-- `StrategyBacktester._calculate_trade_pnl`: the backtester's own
per-trade P&L (no FIFO matching, flat fee). -/
def backtesterTradePnl (t : Trade) : ℚ :=
  if 0 < t.sold_amount then
    t.sold_amount - t.quantity * t.price * 100 - TRANSACTION_FEE
  else 0

/-- `trade.get('strategy', 'No Strategy') or 'No Strategy'`. -/
def normStrategy (t : Trade) : String :=
  if t.strategy = "" then "No Strategy" else t.strategy

/-- The `time_range` filter value (`'end'` is rendered as `stop`). -/
structure TimeRange where
  start : Option DateTime
  stop : Option DateTime
deriving DecidableEq, Repr

/-- The backtest filter set.  Python truthiness of `filters.get(...)` is
modelled by the empty list / `0` / `Option.none` meaning "inactive". -/
structure Filters where
  day_of_week : List String
  symbols : List String
  exclude_symbols : List String
  min_win_rate : ℚ
  strategies : List String
  time_range : Option TimeRange
deriving DecidableEq, Repr

/-- A filter set with every filter absent. -/
def emptyFilters : Filters :=
  { day_of_week := [], symbols := [], exclude_symbols := [],
    min_win_rate := 0, strategies := [], time_range := Option.none }

/-- Steps 1-5 of `StrategyBacktester._apply_filters` (everything before
the min-win-rate pass), as the per-trade survival predicate of the
`for trade in self.original_trades` loop. -/
def passesBaseFilters (now : DateTime) (filters : Filters) (t : Trade) : Bool :=
  isClosing t &&
  (filters.day_of_week.isEmpty ||
    filters.day_of_week.contains (weekdayName (parseDate now t.date))) &&
  (filters.symbols.isEmpty || filters.symbols.contains t.symbol) &&
  (filters.exclude_symbols.isEmpty || !(filters.exclude_symbols.contains t.symbol)) &&
  (filters.strategies.isEmpty || filters.strategies.contains (normStrategy t)) &&
  (match filters.time_range with
   | Option.none => true
   | some tr =>
     (match tr.start with
      | Option.none => true
      | some s => !(decide (dtLt (parseDate now t.date) s))) &&
     (match tr.stop with
      | Option.none => true
      | some e => !(decide (dtLt e (parseDate now t.date)))))

/-- `StrategyBacktester._calculate_symbol_win_rates` read back through
the dict lookup `symbol_win_rates.get(symbol, 0)`: percentage of trades
of that symbol with positive backtester P&L, 0 for an absent symbol. -/
def symbolWinRate (trades : List Trade) (sym : String) : ℚ :=
  let group := trades.filter fun t => t.symbol = sym
  if group.length ≠ 0 then
    ((group.filter fun t => 0 < backtesterTradePnl t).length : ℚ) / group.length * 100
  else 0

/-- `StrategyBacktester._apply_filters`: steps 1-5 per trade, then the
min-win-rate second pass over the already-filtered list. -/
def applyFilters (now : DateTime) (original : List Trade) (filters : Filters) : List Trade :=
  let filtered := original.filter (passesBaseFilters now filters)
  if filters.min_win_rate ≠ 0 then
    filtered.filter fun t => filters.min_win_rate ≤ symbolWinRate filtered t.symbol
  else filtered

/-- `max(xs)` guarded by `if xs else 0`. -/
def listMax : List ℚ → ℚ
  | [] => 0
  | x :: xs => xs.foldl pyMax x

/-- The Metrics record returned by `StrategyBacktester.backtest`.  The
`avg_win`, `avg_loss` and `trades_removed` keys are absent from the
dict returned by the empty-survivor branch, hence `Option`. -/
structure BacktestResult where
  total_trades : ℕ
  winning_trades : ℕ
  losing_trades : ℕ
  win_rate : ℚ
  total_pnl : ℚ
  avg_pnl : ℚ
  max_win : ℚ
  max_loss : ℚ
  avg_win : Option ℚ
  avg_loss : Option ℚ
  original_trades : ℕ
  filtered_trades : ℕ
  trades_removed : Option ℤ
deriving DecidableEq, Repr

/-- `StrategyBacktester._calculate_results` (the three bookkeeping fields
are filled in by `backtest`). -/
def calculateResults (trades : List Trade) : BacktestResult :=
  let pnls := trades.map backtesterTradePnl
  let total_trades := trades.length
  let wins := pnls.filter fun p => 0 < p
  let losses := (pnls.filter fun p => ¬ 0 < p).map fun p => |p|
  let total_pnl := pnls.sum
  let win_rate := if total_trades ≠ 0 then (wins.length : ℚ) / total_trades * 100 else 0
  let avg_pnl := if total_trades ≠ 0 then total_pnl / total_trades else 0
  { total_trades := total_trades
    winning_trades := wins.length
    losing_trades := losses.length
    win_rate := pyRound win_rate 1
    total_pnl := pyRound total_pnl 2
    avg_pnl := pyRound avg_pnl 2
    max_win := pyRound (listMax wins) 2
    max_loss := pyRound (listMax losses) 2
    avg_win := some (if wins ≠ [] then pyRound (wins.sum / wins.length) 2 else 0)
    avg_loss := some (if losses ≠ [] then pyRound (losses.sum / losses.length) 2 else 0)
    original_trades := 0
    filtered_trades := 0
    trades_removed := Option.none }

/-- `StrategyBacktester.backtest`. -/
def backtest (now : DateTime) (original : List Trade) (filters : Filters) : BacktestResult :=
  let filtered := applyFilters now original filters
  if filtered = [] then
    { total_trades := 0, winning_trades := 0, losing_trades := 0, win_rate := 0,
      total_pnl := 0, avg_pnl := 0, max_win := 0, max_loss := 0,
      avg_win := Option.none, avg_loss := Option.none,
      original_trades := original.length, filtered_trades := 0,
      trades_removed := Option.none }
  else
    { calculateResults filtered with
      original_trades := original.length
      filtered_trades := filtered.length
      trades_removed := some ((original.length : ℤ) - (filtered.length : ℤ)) }

/-! ## Live aggregate metrics (`TradeTracker.get_pnl_metrics`) -/

/-- The aggregate fields of `get_pnl_metrics`.  The calendar-window
fields (`day_pnl`, `week_pnl`, `month_pnl`), `avg_loss_pct`,
`expectancy` and `last_updated` are not referenced by any claim and are
omitted from this embedding. -/
structure PnlMetrics where
  all_time_pnl : ℚ
  win_rate : ℚ
  total_trades : ℕ
  winning_trades : ℕ
  losing_trades : ℕ
  profit_factor : ℚ
  avg_win : ℚ
  avg_loss : ℚ
  largest_win : ℚ
  largest_loss : ℚ
deriving DecidableEq, Repr

/-- `TradeTracker.get_pnl_metrics`, aggregate fields: every SELL/CLOSE
trade contributes its FIFO P&L (`calculate_trade_pnl`). -/
def getPnlMetrics (now : DateTime) (trades : List Trade) : PnlMetrics :=
  let pnls := (trades.filter isClosing).map (calculate_trade_pnl trades now)
  let total_trades := pnls.length
  let winning_trades := (pnls.filter fun p => 0 < p).length
  let win_rate := if total_trades ≠ 0 then (winning_trades : ℚ) / total_trades * 100 else 0
  let winning_pnl := (pnls.filter fun p => 0 < p).sum
  let losing_pnl := ((pnls.filter fun p => ¬ 0 < p).map fun p => |p|).sum
  let profit_factor :=
    if 0 < losing_pnl then winning_pnl / losing_pnl
    else if 0 < winning_pnl then winning_pnl else 0
  let wins := pnls.filter fun p => 0 < p
  let losses := (pnls.filter fun p => p < 0).map fun p => |p|
  { all_time_pnl := pyRound pnls.sum 2
    win_rate := pyRound win_rate 1
    total_trades := total_trades
    winning_trades := winning_trades
    losing_trades := total_trades - winning_trades
    profit_factor := pyRound profit_factor 2
    avg_win := pyRound (if wins ≠ [] then wins.sum / wins.length else 0) 2
    avg_loss := pyRound (if losses ≠ [] then losses.sum / losses.length else 0) 2
    largest_win := if wins ≠ [] then pyRound (listMax wins) 2 else 0
    largest_loss := if losses ≠ [] then pyRound (listMax losses) 2 else 0 }

/-! ## Portfolio reconstruction (`TradeTracker.get_portfolio_daily_balances`) -/

/-- A portfolio snapshot as `load_portfolio_history` returns it: its
date is formatted `'%Y-%m-%d'`, so it parses to midnight of a calendar
day, modelled directly as the day number. -/
structure Snapshot where
  day : ℤ
  amount : ℚ
deriving DecidableEq, Repr

/-- `min(portfolio_history, key=parse date)`: the first snapshot with
the minimal date. -/
def minSnap : List Snapshot → Option Snapshot
  | [] => Option.none
  | s :: ss => some (ss.foldl (fun acc x => if x.day < acc.day then x else acc) s)

/-- Total realized P&L bucketed on calendar day `k`
(`pnl_by_day[date_key]`): closing trades whose parsed date is on/after
the base date and falls on day `k`. -/
def daySum (now : DateTime) (trades : List Trade) (baseDay : ℤ) (k : ℤ) : ℚ :=
  ((trades.filter fun t =>
      isClosing t &&
      decide (dtLe ⟨baseDay, 0⟩ (parseDate now t.date)) &&
      decide ((parseDate now t.date).day = k)).map
    (calculate_trade_pnl trades now)).sum

/-- Cumulative realized P&L from the base day through `baseDay + i`. -/
def cumPnl (now : DateTime) (trades : List Trade) (baseDay : ℤ) : ℕ → ℚ
  | 0 => daySum now trades baseDay baseDay
  | i + 1 => cumPnl now trades baseDay i + daySum now trades baseDay (baseDay + (i + 1))

/-- `last_trade_date`: the latest parsed date among closing trades
on/after the base date, seeded with the base date itself. -/
def lastTradeDate (now : DateTime) (trades : List Trade) (baseDay : ℤ) : DateTime :=
  trades.foldl
    (fun acc t =>
      if isClosing t ∧ dtLe ⟨baseDay, 0⟩ (parseDate now t.date) ∧ dtLt acc (parseDate now t.date)
      then parseDate now t.date else acc)
    ⟨baseDay, 0⟩

/-- The day of `end_date = max(last_trade_date, today)`. -/
def endDay (now : DateTime) (trades : List Trade) (baseDay : ℤ) : ℤ :=
  (dtMax (lastTradeDate now trades baseDay) now).day

/-- `TradeTracker.get_portfolio_daily_balances`: the per-day balance
series as an ascending association list `(day, balance)`.  The `while`
loop visits the midnights `base_date + i` with `i = 0, 1, ...` as long
as they are `<=` `end_date`, i.e. exactly the days `baseDay .. endDay`;
the running `cumulative_pnl` at day `k` equals the sum of the per-day
buckets from the base day through `k` (an absent `pnl_by_day` key
contributes 0, the same as the empty bucket sum). -/
def dailyBalances (now : DateTime) (snaps : List Snapshot) (trades : List Trade) :
    List (ℤ × ℚ) :=
  match minSnap snaps with
  | Option.none => []
  | some base =>
    let n : ℕ := (endDay now trades base.day - base.day).toNat + 1
    (List.range n).map fun (i : ℕ) =>
      (base.day + (i : ℤ), pyRound (base.amount + cumPnl now trades base.day i) 2)

/-! ## Portfolio summary (`app.py`, `portfolio_tracker` GET branch) -/

/-- A manual portfolio adjustment as the summary reads it: a numeric
`amount`, an `apply_to` scope string, and an optional `'%Y-%m-%d'` date
(absent/empty dates are falsy and modelled as `Option.none`; the
lexicographic string comparison against the start-date key coincides
with comparison of day numbers). -/
structure Adjustment where
  amount : ℚ
  apply_to : String
  date : Option ℤ
deriving DecidableEq, Repr

/-- The portfolio summary returned by the GET branch of
`portfolio_tracker` (the truncated `entries` history list is
presentation-only and omitted). -/
structure Summary where
  latest : Option (ℤ × ℚ)
  previous : Option (ℤ × ℚ)
  start : Option (ℤ × ℚ)
  change : ℚ
  since_start_change : ℚ
  since_start_percent : ℚ
deriving DecidableEq, Repr

/-- Does a `latest`/`both`-scoped adjustment pass the
`if not adj_date or adj_date >= start_date` guard? -/
def latestAdjApplies (startDay : ℤ) (a : Adjustment) : Bool :=
  match a.date with
  | Option.none => true
  | some d => startDay ≤ d

/-- The GET branch of `app.py`'s `portfolio_tracker`: summary statistics
over the reconstructed daily balances plus manual adjustments.  The
balance list from `dailyBalances` is already in ascending day order, so
`sorted(daily_balances.keys())` is its list of keys as-is. -/
def portfolioSummary (now : DateTime) (snaps : List Snapshot) (trades : List Trade)
    (adjs : List Adjustment) : Summary :=
  let db := dailyBalances now snaps trades
  match db with
  | [] =>
    { latest := Option.none, previous := Option.none, start := Option.none,
      change := 0, since_start_change := 0, since_start_percent := 0 }
  | first :: rest =>
    let latestE := rest.getLastD first
    let previousE : Option (ℤ × ℚ) := (first :: rest).getD ((first :: rest).length - 2) first
      |> fun p => if rest = [] then Option.none else some p
    let start_amount := first.2
    let latest_amount := latestE.2
    let since_start_adjustments :=
      ((adjs.filter fun a =>
          lower a.apply_to = "since_start" ∨ lower a.apply_to = "both").map
        Adjustment.amount).sum
    let latest_adjustments :=
      ((adjs.filter fun a =>
          (lower a.apply_to = "latest" ∨ lower a.apply_to = "both") &&
          latestAdjApplies first.1 a).map
        Adjustment.amount).sum
    let adjusted_latest := pyRound (latest_amount + latest_adjustments) 2
    let day_change :=
      match previousE with
      | Option.none => 0
      | some p => pyRound (latest_amount - p.2) 2
    let since_start_change :=
      pyRound ((latest_amount - start_amount) + since_start_adjustments) 2
    let since_start_percent :=
      if start_amount ≠ 0 then pyRound (since_start_change / start_amount * 100) 2 else 0
    { latest := some (latestE.1, adjusted_latest)
      previous := previousE
      start := some (first.1, start_amount)
      change := day_change
      since_start_change := since_start_change
      since_start_percent := since_start_percent }

/-! ## Concrete fixtures used by witnesses and counterexamples -/

/-- A reference timestamp used where a concrete `datetime.now()` is
needed (its value is irrelevant to the statements that use it). -/
def now0 : DateTime := ⟨100, 0⟩

/-- A stock opening trade: BUY 1 share of AAPL at $10, no fee, day 0. -/
def stockOpen : Trade :=
  { symbol := "AAPL", action := "BUY", quantity := 1, price := 10, sold_amount := 0,
    transaction_fee := 0, date := DateVal.dt ⟨0, 0⟩, option_type := "",
    strike := 0, trade_type := "STOCK", strategy := "" }

/-- A stock closing trade: SELL 1 share of AAPL for $20 gross, day 1. -/
def stockClose : Trade :=
  { stockOpen with
    action := "SELL", price := 0, sold_amount := 20, date := DateVal.dt ⟨1, 0⟩ }

/-- §8 FIFO fixture, first opening lot: 5 contracts at $1.00, fee $1. -/
def fifoOpen1 : Trade :=
  { symbol := "XYZ", action := "BUY", quantity := 5, price := 1, sold_amount := 0,
    transaction_fee := 1, date := DateVal.dt ⟨0, 0⟩, option_type := "CALL",
    strike := 50, trade_type := "OPTION", strategy := "" }

/-- §8 FIFO fixture, second opening lot: 5 contracts at $2.00, fee $1. -/
def fifoOpen2 : Trade :=
  { fifoOpen1 with price := 2, date := DateVal.dt ⟨1, 0⟩ }

/-- §8 FIFO fixture, closing trade: 7 contracts, $1400 gross, fee $2. -/
def fifoClose : Trade :=
  { fifoOpen1 with
    action := "SELL", quantity := 7, price := 0, sold_amount := 1400,
    transaction_fee := 2, date := DateVal.dt ⟨2, 0⟩ }

/-- The §8 FIFO ledger. -/
def fifoLedger : List Trade := [fifoOpen1, fifoOpen2, fifoClose]

/-- Option opening trade for the backtest-vs-live comparison. -/
def cmpOpen : Trade :=
  { symbol := "XYZ", action := "BUY", quantity := 1, price := 1, sold_amount := 0,
    transaction_fee := 0, date := DateVal.dt ⟨0, 0⟩, option_type := "CALL",
    strike := 50, trade_type := "OPTION", strategy := "" }

/-- Closing trade whose sell-side `price` (3) differs from its FIFO cost
basis (1), so the two P&L primitives disagree on it. -/
def cmpClose : Trade :=
  { cmpOpen with
    action := "SELL", price := 3, sold_amount := 500, date := DateVal.dt ⟨1, 0⟩ }

/-- Closing trade engineered so that both P&L primitives agree on it:
sell-side `price` equals the opening price and its own fee equals the
backtester's flat $2 fee. -/
def cmpCloseAgree : Trade :=
  { cmpOpen with
    action := "SELL", sold_amount := 500, transaction_fee := 2,
    date := DateVal.dt ⟨1, 0⟩ }

/-- A closing trade with an unparseable date string. -/
def garbageDateTrade : Trade :=
  { symbol := "G", action := "SELL", quantity := 0, price := 0, sold_amount := 10,
    transaction_fee := 0, date := DateVal.str "garbage", option_type := "",
    strike := 0, trade_type := "STOCK", strategy := "" }

/-- A Monday-only day-of-week filter set. -/
def mondayFilters : Filters := { emptyFilters with day_of_week := ["Monday"] }

/-- Stock opening trade dated the day before the portfolio base day. -/
def portOpen : Trade :=
  { symbol := "A", action := "BUY", quantity := 1, price := 1, sold_amount := 0,
    transaction_fee := 0, date := DateVal.dt ⟨-1, 0⟩, option_type := "",
    strike := 0, trade_type := "STOCK", strategy := "" }

/-- Closing trade realizing +$100 on the base day itself
(`200 - 1*1*100`). -/
def portClose : Trade :=
  { portOpen with
    action := "SELL", price := 0, sold_amount := 200, date := DateVal.dt ⟨0, 0⟩ }

/-- A dateless since-start adjustment of +$50. -/
def sinceStartAdj : Adjustment :=
  { amount := 50, apply_to := "since_start", date := Option.none }

/-- A `latest`-scoped adjustment dated before the base day. -/
def earlyLatestAdj : Adjustment :=
  { amount := 7, apply_to := "latest", date := some (-3) }

/-- A parametric stock opening lot (BUY `qo` shares at `p`, fee `fo`). -/
def stockOpenG (qo p fo : ℚ) : Trade :=
  { stockOpen with quantity := qo, price := p, transaction_fee := fo }

/-- A parametric stock closing trade (SELL `qc` shares for `sold` gross,
fee `fc`). -/
def stockCloseG (qc sold fc : ℚ) : Trade :=
  { stockClose with quantity := qc, sold_amount := sold, transaction_fee := fc }

/-- An opening trade dated day 10, after "today" in the scenarios that
use it. -/
def buyAfterToday : Trade :=
  { stockOpen with date := DateVal.dt ⟨10, 0⟩ }

/-- A snapshot of $100 on day 0. -/
def snap100 : Snapshot := ⟨0, 100⟩

/-- A snapshot of $0 on day 0. -/
def snap0 : Snapshot := ⟨0, 0⟩

/-- Ledger with one realized +$100 closing trade on day 0. -/
def portLedger : List Trade := [portOpen, portClose]

/-- Ledger on which the two P&L primitives disagree. -/
def cmpLedger : List Trade := [cmpOpen, cmpClose]

/-- Ledger on which the two P&L primitives agree trade-by-trade. -/
def cmpAgreeLedger : List Trade := [cmpOpen, cmpCloseAgree]

/-- Winning closing trade on symbol A (backtester P&L `300-100-2 > 0`). -/
def winTradeA : Trade :=
  { symbol := "A", action := "SELL", quantity := 1, price := 1, sold_amount := 300,
    transaction_fee := 0, date := DateVal.dt ⟨0, 0⟩, option_type := "",
    strike := 0, trade_type := "STOCK", strategy := "" }

/-- Losing closing trade on symbol B (backtester P&L `50-100-2 < 0`). -/
def loseTradeB : Trade :=
  { winTradeA with symbol := "B", sold_amount := 50 }

/-- A 50% minimum-win-rate filter set. -/
def minWinFilters : Filters := { emptyFilters with min_win_rate := 50 }

/-! ## Reducibility of the core rational operations

The arithmetic operations on `Rat` are `@[irreducible]` in core, which
blocks `decide`-style evaluation of the embedded functions on concrete
inputs; they are perfectly sound to unfold. -/

set_option allowUnsafeReducibility true

attribute [local semireducible] Rat.add Rat.sub Rat.mul Rat.div Rat.neg Rat.inv

/-! ## Helper lemmas -/

/-- On a date value that parses without the fallback, `_parse_date` does
not depend on the ambient current time. -/
theorem parseDate_congr (v : DateVal) (h : parsesWithoutFallback v = true)
    (n₁ n₂ : DateTime) : parseDate n₁ v = parseDate n₂ v := by
  cases v with
  | noneVal => simp [parsesWithoutFallback] at h
  | dt d => rfl
  | str s =>
    simp only [parsesWithoutFallback, Bool.and_eq_true, decide_eq_true_eq] at h
    obtain ⟨hs, hsome⟩ := h
    obtain ⟨d, hd⟩ := Option.isSome_iff_exists.mp hsome
    simp [parseDate, hs, hd]

/-- With every filter absent, the per-trade survival predicate reduces
to the closing-action test. -/
theorem passesBaseFilters_empty (now : DateTime) (t : Trade) :
    passesBaseFilters now emptyFilters t = isClosing t := by
  simp [passesBaseFilters, emptyFilters]

/-- With every filter absent, `_apply_filters` keeps exactly the closing
trades. -/
theorem applyFilters_empty (now : DateTime) (trades : List Trade) :
    applyFilters now trades emptyFilters = trades.filter isClosing := by
  simp only [applyFilters, emptyFilters, ne_eq, not_true_eq_false, if_false]
  exact List.filter_congr fun t _ => passesBaseFilters_empty now t

/-- Splitting a list's length by a boolean predicate. -/
theorem length_filter_add_length_filter_not (l : List ℚ) (p : ℚ → Bool) :
    (l.filter p).length + (l.filter fun x => !(p x)).length = l.length := by
  induction l with
  | nil => rfl
  | cons x xs ih =>
    by_cases h : p x <;> simp [List.filter_cons, h, Nat.succ_eq_add_one] <;> omega

/-- Python `round` fixes 0. -/
theorem pyRound_zero (n : ℕ) : pyRound 0 n = 0 := by
  simp [pyRound, roundHalfEven]

/-- A list of rationals splits into its non-positive and its positive
entries. -/
theorem filter_le_add_filter_lt_length (l : List ℚ) :
    (l.filter fun p => decide (p ≤ 0)).length +
      (l.filter fun p => decide ((0 : ℚ) < p)).length = l.length := by
  induction l with
  | nil => rfl
  | cons x xs ih =>
    by_cases h : (0 : ℚ) < x <;>
      simp [List.filter_cons, h, not_le.mpr, not_lt.mp, le_of_not_lt] <;> omega

/-- A per-symbol win rate is never negative. -/
theorem symbolWinRate_nonneg (trades : List Trade) (sym : String) :
    0 ≤ symbolWinRate trades sym := by
  unfold symbolWinRate
  simp only []
  split
  · positivity
  · exact le_refl 0

/-- The reconstructed balance series, written as a map over the day
indices, once the base snapshot is fixed. -/
theorem dailyBalances_eq (now : DateTime) (snaps : List Snapshot) (trades : List Trade)
    (b : Snapshot) (hb : minSnap snaps = some b) :
    dailyBalances now snaps trades =
      (List.range ((endDay now trades b.day - b.day).toNat + 1)).map
        (fun (i : ℕ) => (b.day + (i : ℤ), pyRound (b.amount + cumPnl now trades b.day i) 2)) := by
  simp [dailyBalances, hb]

/-- The first entry of the balance series is the base day, valued at the
base amount plus the base day's realized P&L. -/
theorem dailyBalances_head (now : DateTime) (snaps : List Snapshot) (trades : List Trade)
    (b : Snapshot) (hb : minSnap snaps = some b) :
    (dailyBalances now snaps trades).head? =
      some (b.day, pyRound (b.amount + cumPnl now trades b.day 0) 2) := by
  rw [dailyBalances_eq now snaps trades b hb]
  rw [List.range_succ_eq_map]
  simp

/-! ## C1: stock-trade cost multiplier in the FIFO walk -/

/-- C1 counterexample: for a STOCK closing trade (BUY 1 @ $10, SELL for
$20 gross, no fees), the claim's multiplier-1 arithmetic predicts a P&L
of `20 - 1*10 - 0 = 10`, but the code multiplies the matched stock cost
by 100 as well and returns `20 - 1*10*100 - 0 = -980`. -/
theorem c1_stock_multiplier_counterexample :
    calculate_trade_pnl [stockOpen, stockClose] now0 stockClose = -980 ∧
    calculate_trade_pnl [stockOpen, stockClose] now0 stockClose ≠ 10 := by
  constructor <;> decide

/-- C1 (amended): for every fully matched STOCK closing trade with
positive `sold_amount`, the P&L Calculator accumulates matched cost as
`matched_quantity * opening.price * 100` — the ×100 contract multiplier
is applied regardless of `trade_type`; there is no branch on it —
together with the quantity-proportional share of the opening fee. -/
theorem c1_stock_cost_uses_contract_multiplier (now : DateTime)
    (qo qc p fo fc sold : ℚ) (h0 : 0 < sold) (h1 : 0 < qc) (h2 : qc ≤ qo) :
    calculate_trade_pnl [stockOpenG qo p fo, stockCloseG qc sold fc] now
      (stockCloseG qc sold fc) =
    sold - qc * p * 100 - (fc + qc / qo * fo) := by
  have hqo : 0 < qo := lt_of_lt_of_le h1 h2
  unfold calculate_trade_pnl
  rw [if_pos ⟨rfl, h0⟩]
  simp [stockOpenG, stockCloseG, stockOpen, stockClose, parseDate,
    List.filter_cons, List.filter_nil, isOpening, isClosing, upper, getSymbolKey,
    stableSort, stableInsert, List.foldl_cons, List.foldl_nil, fifoStep, pyMin,
    dtLt, dtLe, not_le.mpr h1, h2, hqo, sub_self]

/-- C1 witness: the amended statement evaluated at
`qo = qc = 1, p = 10, fo = fc = 0, sold = 20`. -/
theorem c1_stock_cost_uses_contract_multiplier_witness :
    (0 : ℚ) < 20 ∧ (0 : ℚ) < 1 ∧ (1 : ℚ) ≤ 1 ∧
    calculate_trade_pnl [stockOpenG 1 10 0, stockCloseG 1 20 0] now0
      (stockCloseG 1 20 0) = 20 - 1 * 10 * 100 - (0 + 1 / 1 * 0) :=
  ⟨by norm_num, by norm_num, le_refl 1,
   c1_stock_cost_uses_contract_multiplier now0 1 1 10 0 0 20
     (by norm_num) (by norm_num) (le_refl 1)⟩

/-! ## C2: backtest engine versus live P&L primitive -/

/-- C2 counterexample: with permissive (empty) filters on a ledger of
one opening and one closing option trade, the backtest engine's total
P&L (its own flat formula: `500 - 1*3*100 - 2 = 198`) differs from the
live engine's FIFO total (`500 - 1*1*100 - 0 = 400`): the backtester
does not reuse the live P&L primitive. -/
theorem c2_backtest_pnl_differs_counterexample :
    (backtest now0 cmpLedger emptyFilters).total_pnl = 198 ∧
    (getPnlMetrics now0 cmpLedger).all_time_pnl = 400 ∧
    (backtest now0 cmpLedger emptyFilters).total_pnl ≠
      (getPnlMetrics now0 cmpLedger).all_time_pnl := by
  refine ⟨by decide, by decide, by decide⟩

/-- C2 (amended): the backtest engine computes per-trade P&L with its
own primitive (`sold_amount - quantity*price*100 - $2 flat fee`), not
the live FIFO primitive; when the two primitives happen to agree on
every closing trade of the ledger (and at least one closing trade
exists), the backtest under empty filters reproduces the live engine's
aggregate statistics: trade count, win/loss counts, win rate, total
P&L, average win and max win. -/
theorem c2_backtest_matches_live_when_pnl_agrees (now : DateTime) (trades : List Trade)
    (hpt : ∀ t ∈ trades, isClosing t = true →
      backtesterTradePnl t = calculate_trade_pnl trades now t)
    (hne : trades.filter isClosing ≠ []) :
    (backtest now trades emptyFilters).total_trades = (getPnlMetrics now trades).total_trades ∧
    (backtest now trades emptyFilters).winning_trades = (getPnlMetrics now trades).winning_trades ∧
    (backtest now trades emptyFilters).losing_trades = (getPnlMetrics now trades).losing_trades ∧
    (backtest now trades emptyFilters).win_rate = (getPnlMetrics now trades).win_rate ∧
    (backtest now trades emptyFilters).total_pnl = (getPnlMetrics now trades).all_time_pnl ∧
    (backtest now trades emptyFilters).avg_win = some (getPnlMetrics now trades).avg_win ∧
    (backtest now trades emptyFilters).max_win = (getPnlMetrics now trades).largest_win := by
  have hfilt := applyFilters_empty now trades
  have hp : (trades.filter isClosing).map backtesterTradePnl =
      (trades.filter isClosing).map (calculate_trade_pnl trades now) :=
    List.map_congr_left fun t ht =>
      hpt t (List.mem_of_mem_filter ht) (List.of_mem_filter ht)
  have e1 : (backtest now trades emptyFilters).total_trades =
      (getPnlMetrics now trades).total_trades := by
    simp only [backtest, hfilt, if_neg hne, calculateResults, getPnlMetrics, hp]
    simp
  have e2 : (backtest now trades emptyFilters).winning_trades =
      (getPnlMetrics now trades).winning_trades := by
    simp only [backtest, hfilt, if_neg hne, calculateResults, getPnlMetrics, hp]
  have e3 : (backtest now trades emptyFilters).losing_trades =
      (getPnlMetrics now trades).losing_trades := by
    simp only [backtest, hfilt, if_neg hne, calculateResults, getPnlMetrics, hp]
    have hnot : (fun p : ℚ => decide ¬ 0 < p) = (fun p : ℚ => decide (p ≤ 0)) := by
      funext p
      simp [not_lt]
    rw [hnot]
    generalize (List.map (calculate_trade_pnl trades now) (List.filter isClosing trades)) = pnls
    have h := filter_le_add_filter_lt_length pnls
    simp only [List.length_map]
    omega
  have e4 : (backtest now trades emptyFilters).win_rate =
      (getPnlMetrics now trades).win_rate := by
    simp only [backtest, hfilt, if_neg hne, calculateResults, getPnlMetrics, hp]
    simp [List.length_map]
  have e5 : (backtest now trades emptyFilters).total_pnl =
      (getPnlMetrics now trades).all_time_pnl := by
    simp only [backtest, hfilt, if_neg hne, calculateResults, getPnlMetrics, hp]
  have e6 : (backtest now trades emptyFilters).avg_win =
      some (getPnlMetrics now trades).avg_win := by
    simp only [backtest, hfilt, if_neg hne, calculateResults, getPnlMetrics, hp]
    by_cases hw : (List.filter (fun p => decide (0 < p))
        ((trades.filter isClosing).map (calculate_trade_pnl trades now))) = [] <;>
      simp [hw, pyRound_zero]
  have e7 : (backtest now trades emptyFilters).max_win =
      (getPnlMetrics now trades).largest_win := by
    simp only [backtest, hfilt, if_neg hne, calculateResults, getPnlMetrics, hp]
    by_cases hw : (List.filter (fun p => decide (0 < p))
        ((trades.filter isClosing).map (calculate_trade_pnl trades now))) = [] <;>
      simp [hw, listMax, pyRound_zero]
  exact ⟨e1, e2, e3, e4, e5, e6, e7⟩

/-- C2 witness: on `cmpAgreeLedger` (closing trade engineered so both
primitives give `398`), the hypotheses hold and the aggregates agree. -/
theorem c2_backtest_matches_live_witness :
    (∀ t ∈ cmpAgreeLedger, isClosing t = true →
      backtesterTradePnl t = calculate_trade_pnl cmpAgreeLedger now0 t) ∧
    cmpAgreeLedger.filter isClosing ≠ [] ∧
    ((backtest now0 cmpAgreeLedger emptyFilters).total_trades =
        (getPnlMetrics now0 cmpAgreeLedger).total_trades ∧
      (backtest now0 cmpAgreeLedger emptyFilters).winning_trades =
        (getPnlMetrics now0 cmpAgreeLedger).winning_trades ∧
      (backtest now0 cmpAgreeLedger emptyFilters).losing_trades =
        (getPnlMetrics now0 cmpAgreeLedger).losing_trades ∧
      (backtest now0 cmpAgreeLedger emptyFilters).win_rate =
        (getPnlMetrics now0 cmpAgreeLedger).win_rate ∧
      (backtest now0 cmpAgreeLedger emptyFilters).total_pnl =
        (getPnlMetrics now0 cmpAgreeLedger).all_time_pnl ∧
      (backtest now0 cmpAgreeLedger emptyFilters).avg_win =
        some (getPnlMetrics now0 cmpAgreeLedger).avg_win ∧
      (backtest now0 cmpAgreeLedger emptyFilters).max_win =
        (getPnlMetrics now0 cmpAgreeLedger).largest_win) :=
  ⟨by decide, by decide,
   c2_backtest_matches_live_when_pnl_agrees now0 cmpAgreeLedger (by decide) (by decide)⟩

/-! ## C3: the §8 FIFO worked example -/

/-- C3: on the §8 fixture (opens qty 5 @ $1 fee $1 and qty 5 @ $2 fee
$1, then close qty 7 for $1400 gross, fee $2), the FIFO P&L is exactly
`1400 - (5*100*1 + 2*100*2) - (2 + 1 + (2/5)*1) = 496.60 = 2483/5`. -/
theorem c3_fifo_worked_example :
    calculate_trade_pnl fifoLedger now0 fifoClose = 2483 / 5 := by
  decide

/-! ## C4: the empty-survivor backtest record -/

/-- C4 counterexample: on a one-trade ledger whose only trade is an
opening trade, the surviving set is empty and the returned record has
`trades_removed` absent (and likewise `avg_win`, `avg_loss`) while
`original_trades` is 1, not 0 — so the record is neither all-zero nor
does it contain every §6 Metrics field. -/
theorem c4_empty_record_counterexample :
    (backtest now0 [cmpOpen] emptyFilters).trades_removed = Option.none ∧
    (backtest now0 [cmpOpen] emptyFilters).avg_win = Option.none ∧
    (backtest now0 [cmpOpen] emptyFilters).avg_loss = Option.none ∧
    (backtest now0 [cmpOpen] emptyFilters).original_trades ≠ 0 := by
  refine ⟨by decide, by decide, by decide, by decide⟩

/-- C4 (amended): for every ledger and filter set whose surviving set is
empty, the Backtest Engine returns (rather than failing) a record with
zero statistics fields and `filtered_trades = 0`, `original_trades` set
to the full ledger size, and without the `avg_win`, `avg_loss` and
`trades_removed` keys. -/
theorem c4_empty_survivors_record (now : DateTime) (trades : List Trade)
    (filters : Filters) (h : applyFilters now trades filters = []) :
    backtest now trades filters =
      { total_trades := 0, winning_trades := 0, losing_trades := 0, win_rate := 0,
        total_pnl := 0, avg_pnl := 0, max_win := 0, max_loss := 0,
        avg_win := Option.none, avg_loss := Option.none,
        original_trades := trades.length, filtered_trades := 0,
        trades_removed := Option.none } := by
  simp [backtest, h]

/-- C4 witness: the amended statement on the one-opening-trade ledger. -/
theorem c4_empty_survivors_record_witness :
    applyFilters now0 [cmpOpen] emptyFilters = [] ∧
    backtest now0 [cmpOpen] emptyFilters =
      { total_trades := 0, winning_trades := 0, losing_trades := 0, win_rate := 0,
        total_pnl := 0, avg_pnl := 0, max_win := 0, max_loss := 0,
        avg_win := Option.none, avg_loss := Option.none,
        original_trades := 1, filtered_trades := 0,
        trades_removed := Option.none } :=
  ⟨by decide, c4_empty_survivors_record now0 [cmpOpen] emptyFilters (by decide)⟩

/-! ## C5: the min-win-rate second pass -/

/-- C5: for every ledger and filter set, `_apply_filters` equals the
two-stage pipeline: first the day-of-week / symbol / exclusion /
strategy / date-range pass, then a second pass that keeps a trade only
when its symbol's win rate **computed over the already-filtered
population** reaches `min_win_rate` (for the falsy threshold 0 the code
skips the pass, which coincides with the formula because win rates are
never negative). -/
theorem c5_min_win_rate_second_pass (now : DateTime) (trades : List Trade)
    (filters : Filters) :
    applyFilters now trades filters =
      (trades.filter (passesBaseFilters now filters)).filter
        (fun t => filters.min_win_rate ≤
          symbolWinRate (trades.filter (passesBaseFilters now filters)) t.symbol) := by
  by_cases h : filters.min_win_rate ≠ 0
  · simp [applyFilters, h]
  · push_neg at h
    simp only [applyFilters, h, ne_eq, not_true_eq_false, if_false]
    symm
    rw [List.filter_eq_self]
    intro t _
    simp [h, symbolWinRate_nonneg]

/-- C5 witness: with a 50% threshold over one winning symbol-A trade
and one losing symbol-B trade, the pipeline equality holds (and indeed
drops the B trade). -/
theorem c5_min_win_rate_second_pass_witness :
    applyFilters now0 [winTradeA, loseTradeB] minWinFilters =
      (([winTradeA, loseTradeB].filter (passesBaseFilters now0 minWinFilters)).filter
        (fun t => minWinFilters.min_win_rate ≤
          symbolWinRate
            ([winTradeA, loseTradeB].filter (passesBaseFilters now0 minWinFilters))
            t.symbol)) ∧
    applyFilters now0 [winTradeA, loseTradeB] minWinFilters = [winTradeA] :=
  ⟨c5_min_win_rate_second_pass now0 [winTradeA, loseTradeB] minWinFilters, by decide⟩

/-! ## C6: the Date Normalizer's never-throw fallback -/

/-- C6: `_parse_date` is total (the embedding is a function, mirroring
the all-catching handlers) and: absent input yields the current
timestamp, the empty string yields the current timestamp, a native
`datetime` passes through unchanged, and any string matched by neither
the ISO branch nor the four fallback formats yields the current
timestamp. -/
theorem c6_parse_date_never_raises (now : DateTime) :
    parseDate now DateVal.noneVal = now ∧
    parseDate now (DateVal.str "") = now ∧
    (∀ d, parseDate now (DateVal.dt d) = d) ∧
    (∀ s, parseString s = Option.none → parseDate now (DateVal.str s) = now) := by
  refine ⟨rfl, rfl, fun d => rfl, fun s hs => ?_⟩
  by_cases he : s = "" <;> simp [parseDate, he, hs]

/-- C6 witness: the unmatched-string clause applied to `"garbage"`. -/
theorem c6_parse_date_never_raises_witness :
    parseString "garbage" = Option.none ∧
    parseDate now0 (DateVal.str "garbage") = now0 :=
  ⟨by decide, (c6_parse_date_never_raises now0).2.2.2 "garbage" (by decide)⟩

/-! ## C7: the reconstructed daily balance series -/

/-- C7 counterexample: with a day-0 snapshot, "today" on day 5, and a
single opening trade dated day 10, the claim's range — one entry per
day through `max(today, latest trade date) = 10` — requires an entry
for day 10, but the code only tracks closing trades when extending the
range and stops at day 5. -/
theorem c7_range_counterexample :
    (dailyBalances ⟨5, 0⟩ [snap100] [buyAfterToday]).map Prod.fst =
      [0, 1, 2, 3, 4, 5] ∧
    ¬ (10 : ℤ) ∈ (dailyBalances ⟨5, 0⟩ [snap100] [buyAfterToday]).map Prod.fst := by
  refine ⟨by decide, by decide⟩

/-- C7 (amended): with no snapshots the series is empty; otherwise it
has exactly one entry per calendar day, gapless, from the base
(earliest-snapshot) day through `max(today, latest closing-trade date
on/after the base date)` inclusive, and a day with no closing trades
carries forward the previous day's balance. -/
theorem c7_daily_series_gapless_carry_forward (now : DateTime)
    (snaps : List Snapshot) (trades : List Trade) :
    (snaps = [] → dailyBalances now snaps trades = []) ∧
    (∀ b, minSnap snaps = some b →
      ((dailyBalances now snaps trades).map Prod.fst =
        (List.range ((endDay now trades b.day - b.day).toNat + 1)).map
          (fun (i : ℕ) => b.day + (i : ℤ))) ∧
      (∀ i : ℕ, i + 1 < (endDay now trades b.day - b.day).toNat + 1 →
        daySum now trades b.day (b.day + ((i : ℤ) + 1)) = 0 →
        ((dailyBalances now snaps trades)[i + 1]?).map Prod.snd =
          ((dailyBalances now snaps trades)[i]?).map Prod.snd)) := by
  refine ⟨fun h => by simp [h, dailyBalances, minSnap], fun b hb => ⟨?_, ?_⟩⟩
  · rw [dailyBalances_eq now snaps trades b hb]
    simp [List.map_map]
  · intro i hi hzero
    rw [dailyBalances_eq now snaps trades b hb]
    have hi2 : i < (endDay now trades b.day - b.day).toNat + 1 := by omega
    simp only [List.getElem?_map, List.getElem?_range, hi, hi2, if_pos]
    have hc : cumPnl now trades b.day (i + 1) = cumPnl now trades b.day i := by
      have step : cumPnl now trades b.day (i + 1) =
          cumPnl now trades b.day i +
            daySum now trades b.day (b.day + ((i + 1 : ℕ) : ℤ)) := rfl
      have heq : b.day + ((i + 1 : ℕ) : ℤ) = b.day + ((i : ℤ) + 1) := by
        push_cast
        ring
      rw [step, heq, hzero, add_zero]
    simp [hc]

/-- C7 witness: base snapshot $100 on day 0, one +$100 closing trade on
day 0, "today" day 2: the key list is day 0..2 and day 1 (no trades)
carries day 0's balance forward. -/
theorem c7_daily_series_witness :
    minSnap [snap100] = some snap100 ∧
    (0 : ℕ) + 1 < (endDay ⟨2, 0⟩ portLedger snap100.day - snap100.day).toNat + 1 ∧
    daySum ⟨2, 0⟩ portLedger snap100.day (snap100.day + ((0 : ℤ) + 1)) = 0 ∧
    ((dailyBalances ⟨2, 0⟩ [snap100] portLedger).map Prod.fst =
      (List.range ((endDay ⟨2, 0⟩ portLedger snap100.day - snap100.day).toNat + 1)).map
        (fun (i : ℕ) => snap100.day + (i : ℤ))) ∧
    ((dailyBalances ⟨2, 0⟩ [snap100] portLedger)[0 + 1]?).map Prod.snd =
      ((dailyBalances ⟨2, 0⟩ [snap100] portLedger)[0]?).map Prod.snd :=
  ⟨by decide, by decide, by decide,
   ((c7_daily_series_gapless_carry_forward ⟨2, 0⟩ [snap100] portLedger).2 snap100
     (by decide)).1,
   ((c7_daily_series_gapless_carry_forward ⟨2, 0⟩ [snap100] portLedger).2 snap100
     (by decide)).2 0 (by decide) (by decide)⟩

/-! ## C8: the since-start percent denominator -/

/-- C8 counterexample: base snapshot amount $0 on day 0, a +$100 closing
trade on the base day, and a $50 since-start adjustment.  The claim
(`since_start_change / base_amount * 100`, with 0 when the base amount
is 0) predicts 0, but the code divides by the first day's reconstructed
balance (base amount + base-day P&L = 100) and returns 50. -/
theorem c8_percent_denominator_counterexample :
    (minSnap [snap0]).map Snapshot.amount = some 0 ∧
    (portfolioSummary ⟨1, 0⟩ [snap0] portLedger [sinceStartAdj]).since_start_percent = 50 ∧
    (portfolioSummary ⟨1, 0⟩ [snap0] portLedger [sinceStartAdj]).since_start_percent ≠ 0 := by
  refine ⟨by decide, by decide, by decide⟩

/-- C8 (amended): the percent's denominator is the earliest day's
reconstructed balance — the base snapshot's amount plus the base day's
realized P&L, rounded — not the raw base snapshot amount, and the
zero guard is on that balance: the summary returns 0 exactly when that
first-day balance is 0, otherwise
`round(since_start_change / first_balance * 100, 2)`. -/
theorem c8_percent_uses_first_day_balance (now : DateTime) (snaps : List Snapshot)
    (trades : List Trade) (adjs : List Adjustment) (b : Snapshot)
    (first : ℤ × ℚ) (rest : List (ℤ × ℚ))
    (hb : minSnap snaps = some b)
    (hdb : dailyBalances now snaps trades = first :: rest) :
    first = (b.day, pyRound (b.amount + cumPnl now trades b.day 0) 2) ∧
    (portfolioSummary now snaps trades adjs).since_start_percent =
      (if first.2 = 0 then 0
       else pyRound ((portfolioSummary now snaps trades adjs).since_start_change
         / first.2 * 100) 2) := by
  have h1 := dailyBalances_head now snaps trades b hb
  rw [hdb] at h1
  simp only [List.head?_cons, Option.some.injEq] at h1
  refine ⟨h1, ?_⟩
  by_cases hz : first.2 = 0 <;> simp [portfolioSummary, hdb, hz]

/-- C8 witness: the amended statement on the zero-base-snapshot ledger
(first-day balance 100). -/
theorem c8_percent_uses_first_day_balance_witness :
    minSnap [snap0] = some snap0 ∧
    dailyBalances ⟨1, 0⟩ [snap0] portLedger = ((0 : ℤ), (100 : ℚ)) :: [(1, 100)] ∧
    (((0 : ℤ), (100 : ℚ)) =
      (snap0.day, pyRound (snap0.amount + cumPnl ⟨1, 0⟩ portLedger snap0.day 0) 2) ∧
    (portfolioSummary ⟨1, 0⟩ [snap0] portLedger [sinceStartAdj]).since_start_percent =
      (if (((0 : ℤ), (100 : ℚ))).2 = 0 then 0
       else pyRound
         ((portfolioSummary ⟨1, 0⟩ [snap0] portLedger [sinceStartAdj]).since_start_change
           / (((0 : ℤ), (100 : ℚ))).2 * 100) 2)) :=
  ⟨by decide, by decide,
   c8_percent_uses_first_day_balance ⟨1, 0⟩ [snap0] portLedger [sinceStartAdj]
     snap0 (0, 100) [(1, 100)] (by decide) (by decide)⟩

/-! ## C9: determinism of the backtest across calls -/

/-- C9 counterexample: one closing trade with the unparseable date
string `"garbage"` and a Monday-only filter.  The date falls back to
`datetime.now()`, so a call when "now" is a Monday (day 4) keeps the
trade while a call when "now" is a Tuesday (day 5) drops it — the two
Metrics records differ, refuting determinism across calls for
unparseable dates. -/
theorem c9_nondeterminism_counterexample :
    backtest ⟨4, 0⟩ [garbageDateTrade] mondayFilters ≠
      backtest ⟨5, 0⟩ [garbageDateTrade] mondayFilters := by
  decide

/-- C9 (amended): when every trade's date parses without the
current-time fallback, the backtest result does not depend on the
ambient current time, so two calls with identical ledger and filters
yield identical Metrics. -/
theorem c9_deterministic_when_dates_parse (now1 now2 : DateTime)
    (trades : List Trade) (filters : Filters)
    (h : ∀ t ∈ trades, parsesWithoutFallback t.date = true) :
    backtest now1 trades filters = backtest now2 trades filters := by
  have hpass : ∀ t ∈ trades,
      passesBaseFilters now1 filters t = passesBaseFilters now2 filters t := by
    intro t ht
    have hd := parseDate_congr t.date (h t ht) now1 now2
    simp [passesBaseFilters, hd]
  have hfilt : trades.filter (passesBaseFilters now1 filters) =
      trades.filter (passesBaseFilters now2 filters) :=
    List.filter_congr hpass
  simp [backtest, applyFilters, hfilt]

/-- C9 witness: the amended statement on a fully dated ledger under the
Monday filter, at the same two "now" values as the counterexample. -/
theorem c9_deterministic_witness :
    (∀ t ∈ cmpLedger, parsesWithoutFallback t.date = true) ∧
    backtest ⟨4, 0⟩ cmpLedger mondayFilters = backtest ⟨5, 0⟩ cmpLedger mondayFilters :=
  ⟨by decide, c9_deterministic_when_dates_parse ⟨4, 0⟩ ⟨5, 0⟩ cmpLedger mondayFilters
    (by decide)⟩

/-! ## C10: latest-scoped adjustments dated before the base -/

/-- C10: removing a `latest`-scoped adjustment whose date is strictly
before the base (earliest-snapshot) day leaves the summary's `latest`
value unchanged: the `adj_date >= start_date` guard already excludes it
from the latest-adjustment sum. -/
theorem c10_early_latest_adjustment_no_effect (now : DateTime) (snaps : List Snapshot)
    (trades : List Trade) (l1 l2 : List Adjustment) (a : Adjustment) (d : ℤ)
    (b : Snapshot) (ha : lower a.apply_to = "latest") (hd : a.date = some d)
    (hb : minSnap snaps = some b) (hlt : d < b.day) :
    (portfolioSummary now snaps trades (l1 ++ a :: l2)).latest =
      (portfolioSummary now snaps trades (l1 ++ l2)).latest := by
  cases hdb : dailyBalances now snaps trades with
  | nil => simp [portfolioSummary, hdb]
  | cons first rest =>
    have h1 := dailyBalances_head now snaps trades b hb
    rw [hdb] at h1
    simp only [List.head?_cons, Option.some.injEq] at h1
    have hfl : first.1 = b.day := by rw [h1]
    have hsum : ((l1 ++ a :: l2).filter fun x =>
        (lower x.apply_to = "latest" ∨ lower x.apply_to = "both") &&
          latestAdjApplies first.1 x) =
        ((l1 ++ l2).filter fun x =>
        (lower x.apply_to = "latest" ∨ lower x.apply_to = "both") &&
          latestAdjApplies first.1 x) := by
      simp [List.filter_append, List.filter_cons, latestAdjApplies, hd, ha, hfl,
        not_le.mpr hlt]
    simp only [portfolioSummary, hdb, hsum]

/-- C10 witness: a `latest` adjustment dated day −3, base day 0 — its
presence does not change the summary's `latest` value. -/
theorem c10_early_latest_adjustment_witness :
    lower earlyLatestAdj.apply_to = "latest" ∧
    earlyLatestAdj.date = some (-3) ∧
    minSnap [snap0] = some snap0 ∧
    (-3 : ℤ) < snap0.day ∧
    (portfolioSummary ⟨1, 0⟩ [snap0] portLedger
        ([] ++ earlyLatestAdj :: [sinceStartAdj])).latest =
      (portfolioSummary ⟨1, 0⟩ [snap0] portLedger ([] ++ [sinceStartAdj])).latest :=
  ⟨by decide, rfl, by decide, by decide,
   c10_early_latest_adjustment_no_effect ⟨1, 0⟩ [snap0] portLedger []
     [sinceStartAdj] earlyLatestAdj (-3) snap0 (by decide) rfl (by decide) (by decide)⟩

end Echo
